import Mathlib

/-!
Verification development for the `xkcd-alt` command-line tool.

The C++ sources are shallowly embedded: C strings (`char*`,
`std::string`, `std::string_view`) become `List Char`, the
`std::unordered_map<std::string, std::vector<std::string>>` option map
becomes an association list with `try_emplace` / `insert_or_assign`
operations, exceptions become `Except` / `Option` results, and the
process exit together with the bytes written to the standard streams
become an explicit `program_run` record.
-/

namespace Pdxka

/-- C strings are modelled as lists of characters. -/
abbrev CStr := List Char

/-- Embed a Lean string literal as a C string. -/
def str (s : String) : CStr := s.data

/-- The command-line options map type: `pdxka::cliopt_map` is
`std::unordered_map<std::string, std::vector<std::string>>`, modelled as an
association list from option name to the list of argument values. -/
abbrev CliOptMap := List (String × List CStr)

/-- Results of fallible calls compare decidably. -/
instance exceptDecidableEq {e a : Type} [DecidableEq e] [DecidableEq a] :
    DecidableEq (Except e a) := fun x y =>
  match x, y with
  | .error e1, .error e2 => decidable_of_iff (e1 = e2) (by simp)
  | .ok v1, .ok v2 => decidable_of_iff (v1 = v2) (by simp)
  | .error _, .ok _ => isFalse (by simp)
  | .ok _, .error _ => isFalse (by simp)

/-- Map lookup, modelling `opt_map.find(key)` / `opt_map.at(key)`. -/
def cliopt_find : CliOptMap → String → Option (List CStr)
  | [], _ => none
  | (k2, v) :: rest, k => if k2 = k then some v else cliopt_find rest k

/-- `opt_map.try_emplace(key, value)`: inserts only when the key is absent. -/
def try_emplace (m : CliOptMap) (k : String) (v : List CStr) : CliOptMap :=
  match cliopt_find m k with
  | some _ => m
  | none => (k, v) :: m

/-- `opt_map.insert_or_assign(key, value)`: inserts, overwriting any previous
value stored for the key. -/
def insert_or_assign (m : CliOptMap) (k : String) (v : List CStr) : CliOptMap :=
  match cliopt_find m k with
  | some _ => m.map (fun p => if p.1 = k then (k, v) else p)
  | none => (k, v) :: m

/-- The lookahead test in `parse_options` for the token following `-b` /
`\x2d\x2dback`: `std::strlen(argv[i]) && argv[i][0] == \x27-\x27`. -/
def looks_like_option : CStr → Bool
  | [] => false
  | c :: _ => c == '-'

/-- The hand-rolled `pdxka::parse_options(cliopt_map&, int, char*[])` from
`src/pdxka/program_options.cc` (the `!PDXKA_USE_BOOST_PROGRAM_OPTIONS`
branch).  The input list models `argv[1..argc)`.  On an unknown option the
function prints `Error: unknown option <arg>` to standard error and returns
`false`; this is modelled by `Except.error` carrying the diagnostic line.
In the `-b` / `\x2d\x2dback` branch the index `i` has already been advanced
past the inspected token, so when that token itself begins with `-` the
enclosing for-loop increment steps over it: the token is consumed, not
re-scanned. -/
def parse_options (m : CliOptMap) : List CStr → Except CStr CliOptMap
  | [] => .ok m
  | arg :: rest =>
    if arg = str "-h" ∨ arg = str "\x2d\x2dhelp" then
      parse_options (try_emplace m "help" []) rest
    else if arg = str "-V" ∨ arg = str "\x2d\x2dversion" then
      parse_options (try_emplace m "version" []) rest
    else if arg = str "-k" ∨ arg = str "\x2d\x2dinsecure" then
      parse_options (try_emplace m "insecure" []) rest
    else if arg = str "-v" ∨ arg = str "\x2d\x2dverbose" then
      parse_options (try_emplace m "verbose" []) rest
    else if arg = str "-o" ∨ arg = str "\x2d\x2done-line" then
      parse_options (try_emplace m "one_line" []) rest
    else if arg = str "-b" ∨ arg = str "\x2d\x2dback" then
      match rest with
      | [] => parse_options (insert_or_assign m "back" [str "1"]) []
      | next :: rest2 =>
        if looks_like_option next then
          parse_options (insert_or_assign m "back" [str "1"]) rest2
        else
          parse_options (insert_or_assign m "back" [next]) rest2
    else if arg.take 2 = str "-b" then
      parse_options (insert_or_assign m "back" [arg.drop 2]) rest
    else if arg.take 7 = str "\x2d\x2dback=" then
      parse_options (insert_or_assign m "back" [arg.drop 7]) rest
    else
      .error (str "Error: unknown option " ++ arg ++ str "\n")

/-- The two exception classes `std::stoi` can raise. -/
inductive StoiError where
  | invalid_argument
  | out_of_range
deriving DecidableEq, Repr

/-- Value of a list of decimal digit characters, most significant first. -/
def digitsToNat (ds : List Char) : Nat :=
  ds.foldl (fun a c => 10 * a + (c.toNat - 48)) 0

/-- Optional sign handling of `std::stoi` (via `strtol`). -/
def split_sign (t : CStr) : Bool × CStr :=
  match t with
  | [] => (false, [])
  | c :: u =>
    if c = '-' then (true, u)
    else if c = '+' then (false, u)
    else (false, c :: u)

/-- `std::stoi` on a C string: skip leading whitespace, read an optional
sign and a run of decimal digits; no digits raises `std::invalid_argument`,
a value outside the `int` range `[-2147483648, 2147483647]` raises
`std::out_of_range`. -/
def stoi (s : CStr) : Except StoiError Int :=
  let t := s.dropWhile (fun c => c.isWhitespace)
  let st := split_sign t
  let ds := st.2.takeWhile (fun c => c.isDigit)
  if ds = [] then .error .invalid_argument
  else
    let mag : Int := (digitsToNat ds : Nat)
    let v : Int := if st.1 then -mag else mag
    if v < -2147483648 ∨ 2147483647 < v then .error .out_of_range
    else .ok v

/-- The three failure classes of `extract_previous`, each with the data it
reports: `std::invalid_argument` and `std::out_of_range` report the raw
input text, the negative-value check reports the parsed `int`. -/
inductive PrevError where
  | invalid_argument (text : CStr)
  | out_of_range (text : CStr)
  | negative (value : Int)
deriving DecidableEq, Repr

/-- The diagnostic line `extract_previous` prints to standard error for
each failure class (from `src/pdxka/program_main.cc`). -/
def prev_error_msg : PrevError → CStr
  | .invalid_argument t =>
      str "Error: " ++ t ++ str " is an invalid argument for -b, \x2d\x2dback\n"
  | .out_of_range t =>
      str "Error: " ++ t ++ str " is out of integer range \n"
  | .negative v =>
      str "Error: Invalid argument " ++ str (toString v) ++
        str " for -b, \x2d\x2dback. Specified value must be positive\n"

/-- `extract_previous(opt_map)` from `src/pdxka/program_main.cc`: absent
`back` key yields 0; otherwise the first stored value is converted with
`std::stoi`, conversion failure and overflow are caught, and a parsed
negative value is rejected.  The C++ returns `{value, ok}` after printing
the diagnostic; the model returns the error datum instead. -/
def extract_previous (m : CliOptMap) : Except PrevError Nat :=
  match cliopt_find m "back" with
  | none => .ok 0
  | some vals =>
    let back_input := vals.headD []
    match stoi back_input with
    | .error .invalid_argument => .error (.invalid_argument back_input)
    | .error .out_of_range => .error (.out_of_range back_input)
    | .ok back => if back < 0 then .error (.negative back) else .ok back.toNat

/-- `pdxka::cliopts`: the parsed command-line options record. -/
structure Cliopts where
  one_line : Bool
  previous : Nat
  verbose : Bool
  insecure : Bool
deriving DecidableEq, Repr

/-- `pdxka::program_description()` for the hand-rolled configuration with
`PDXKA_PROGNAME` = `xkcd-alt` (from `include/pdxka/program_options.hh`). -/
def program_description : CStr :=
  str "Usage: xkcd-alt [-h] [-b[ ][BACK]] [-o] [-v] [-k]\n\nPrints the alt text for the most recent XKCD comic.\n\nOptions:\n  -h, \x2d\x2dhelp          Print this usage and exit\n  -V, \x2d\x2dversion       Print version information and exit\n\n  -b[ ][BACK], \x2d\x2dback[=][BACK]\n                      Print alt text for the bth previous XKCD strip. If\n                      not given a value, implicitly sets b=1.\n\n  -o, \x2d\x2done-line      Print alt text and attestation on one line.\n  -v, \x2d\x2dverbose       Allow cURL to print what\x27s going on to stderr.\n                      Useful for debugging or satisfying curiosity.\n  -k, \x2d\x2dinsecure      Allow cURL to skip verification of the server\x27s SSL\n                      certificate. Try not to specify this."

/-- `pdxka::version_description()`: assembled at configure time from
version macros in `version.h`; its exact contents are build metadata, so it
is modelled as an abstract constant line. -/
def version_description : CStr :=
  str "xkcd-alt PDXKA_VERSION_STRING PDXKA_BUILD_METADATA"

/-- Outcome of `extract_args`: either `std::exit(code)` was reached (with
the bytes written to standard output and standard error), or a populated
`cliopts` record is returned to `program_main`. -/
inductive ArgsResult where
  | exited (code : Nat) (out : CStr) (err : CStr)
  | options (opts : Cliopts)
deriving DecidableEq, Repr

/-- `extract_args(argc, argv)` from `src/pdxka/program_main.cc`
(hand-rolled configuration): run `parse_options`, exiting with
`EXIT_FAILURE` on failure; print help or version and exit with
`EXIT_SUCCESS` when requested; otherwise assemble the `cliopts` record,
exiting with `EXIT_FAILURE` when `extract_previous` rejects the `back`
value. -/
def extract_args (argv : List CStr) : ArgsResult :=
  match parse_options [] argv with
  | .error msg => .exited 1 [] msg
  | .ok m =>
    if (cliopt_find m "help").isSome then
      .exited 0 (program_description ++ str "\n") []
    else if (cliopt_find m "version").isSome then
      .exited 0 (version_description ++ str "\n") []
    else
      let one_line := (cliopt_find m "one_line").isSome
      match extract_previous m with
      | .error e => .exited 1 [] (prev_error_msg e)
      | .ok previous =>
        .options ⟨one_line, previous,
          (cliopt_find m "verbose").isSome, (cliopt_find m "insecure").isSome⟩

/-- `pdxka::request_type` from `include/pdxka/curl.hh`. -/
inductive request_type where
  | get
  | post
deriving DecidableEq, Repr

/-- `pdxka::curl_result`: cURL status code (`0` is `CURLE_OK`), the last
error-buffer contents, the request type, and the response body. -/
structure curl_result where
  status : Nat
  reason : CStr
  request : request_type
  payload : CStr
deriving DecidableEq, Repr

/-- One run of the network layer underneath `pdxka::get_rss`: the outcomes
of the successive libcurl calls the function makes, the data chunks libcurl
hands to the write callback while `curl_easy_perform` runs, and the text
libcurl leaves in the error buffer on failure. -/
structure rss_transfer where
  global_init_status : Nat
  easy_init_ok : Bool
  url_set_status : Nat
  option_statuses : List Nat
  perform_status : Nat
  chunks : List CStr
  errbuf : CStr
deriving DecidableEq, Repr

/-- The fold in `get_rss` setting the extra cURL options: each
`curl_easy_setopt` runs only while `status` is still `CURLE_OK`, so the
resulting status is the first non-zero one. -/
def first_error (ss : List Nat) : Nat :=
  ss.foldl (fun acc s => if acc = 0 then s else acc) 0

/-- `pdxka::get_rss` from `include/pdxka/rss.hh` (the goto-cleanup chain):
global init, easy-handle acquisition, URL setopt, extra option setopts,
then `curl_easy_perform`, returning `{status, reason, GET, stream.str()}`.
`reason` starts empty and is assigned from the error buffer (or a literal)
only by the error handlers; the stream holds whatever chunks the write
callback received.  Note that when `curl_easy_init` returns null the
function returns with `status` still `CURLE_OK` and only `reason` set. -/
def get_rss (t : rss_transfer) : curl_result :=
  if t.global_init_status ≠ 0 then
    ⟨t.global_init_status, str "Global init error", .get, []⟩
  else if ¬ t.easy_init_ok then
    ⟨0, str "curl_easy_init errored", .get, []⟩
  else if t.url_set_status ≠ 0 then
    ⟨t.url_set_status, t.errbuf, .get, []⟩
  else if first_error t.option_statuses ≠ 0 then
    ⟨first_error t.option_statuses, t.errbuf, .get, []⟩
  else if t.perform_status ≠ 0 then
    ⟨t.perform_status, t.errbuf, .get, t.chunks.flatten⟩
  else
    ⟨0, [], .get, t.chunks.flatten⟩

/-- Whether `get_rss` reaches the `curl_easy_perform` call. -/
def reached_perform (t : rss_transfer) : Bool :=
  t.global_init_status == 0 && t.easy_init_ok && t.url_set_status == 0 &&
    first_error t.option_statuses == 0

/-- A `std::stringstream` write target whose `put` can fail: `capacity`
models the point at which appending a byte raises (for example
`std::bad_alloc`); `put` succeeds while the contents are shorter than the
capacity. -/
structure sstream where
  contents : CStr
  capacity : Option Nat
deriving DecidableEq, Repr

/-- `stream->put(c)`: appends one byte, or raises (`none`) when the
capacity is exhausted. -/
def sstream.put (s : sstream) (c : Char) : Option sstream :=
  match s.capacity with
  | none => some ⟨s.contents ++ [c], none⟩
  | some cap =>
    if cap ≤ s.contents.length then none
    else some ⟨s.contents ++ [c], some cap⟩

/-- The `for (; n < n_items; n++) put(incoming[n])` loop of
`detail::curl_writer`, wrapped in try/catch: returns the number of bytes
successfully put before an exception (all of them when none is raised)
together with the stream state. -/
def writer_loop (st : sstream) : CStr → Nat × sstream
  | [] => (0, st)
  | c :: rest =>
    match st.put c with
    | none => (0, st)
    | some st2 =>
      let r := writer_loop st2 rest
      (r.1 + 1, r.2)

/-- `pdxka::detail::curl_writer` from `include/pdxka/curl.hh`.  The
`(incoming, n_items)` buffer pair is modelled as the list of the `n_items`
bytes libcurl delivered; `incoming` and the `void* stream` target may be
null (`none`).  A null argument makes the callback return `0` without
writing; an exception while putting byte `n` is caught and `n` is
returned; otherwise `n_items` is returned. -/
def curl_writer (incoming : Option CStr) (stream : Option sstream) :
    Nat × Option sstream :=
  match incoming, stream with
  | none, _ => (0, stream)
  | some _, none => (0, none)
  | some buf, some st =>
    let r := writer_loop st buf
    (r.1, some r.2)

/-- A Boost `property_tree::ptree` node: data text plus an ordered list of
keyed children. -/
inductive ptree where
  | node (data : CStr) (children : List (String × ptree))

/-- The data text stored at a `ptree` node. -/
def ptree.data : ptree → CStr
  | .node d _ => d

/-- The ordered children of a `ptree` node. -/
def ptree.children : ptree → List (String × ptree)
  | .node _ cs => cs

/-- First child with the given key, as Boost path lookup resolves one
path component. -/
def find_child : List (String × ptree) → String → Option ptree
  | [], _ => none
  | (k2, t) :: rest, k => if k2 = k then some t else find_child rest k

/-- `tree.get_child(path)` for a dotted path, `none` when a component is
missing (Boost raises `ptree_bad_path`). -/
def get_child : ptree → List String → Option ptree
  | t, [] => some t
  | t, k :: ks =>
    match find_child t.children k with
    | none => none
    | some c => get_child c ks

/-- `tree.get<std::string>(path)`: the data at the addressed node, `none`
when the path is missing. -/
def ptree.get (t : ptree) (path : List String) : Option CStr :=
  (get_child t path).map ptree.data

/-- `pdxka::rss_item`: one `<item>` of the feed. -/
structure rss_item where
  title : CStr
  link : CStr
  img_src : CStr
  img_title : CStr
  img_alt : CStr
  pub_date : CStr
  guid : CStr
deriving DecidableEq, Repr

/-- `rss_item::from_tree` from `src/pdxka/rss.cc`: reads `title`, `link`,
`pubDate`, `guid` off the item tree, re-parses the `description` text as
XML (the external `parse_rss` collaborator, passed in as `parse_rss_frag`)
and reads the `src` / `title` / `alt` attributes of its `img` element.
Each `get` may throw; any failure aborts the construction (`none`). -/
def rss_item.from_tree (parse_rss_frag : CStr → Option ptree) (tree : ptree) :
    Option rss_item := do
  let title ← tree.get ["title"]
  let link ← tree.get ["link"]
  let pub_date ← tree.get ["pubDate"]
  let guid ← tree.get ["guid"]
  let desc ← tree.get ["description"]
  let desc_tree ← parse_rss_frag desc
  let img_src ← desc_tree.get ["img", "<xmlattr>", "src"]
  let img_title ← desc_tree.get ["img", "<xmlattr>", "title"]
  let img_alt ← desc_tree.get ["img", "<xmlattr>", "alt"]
  some ⟨title, link, img_src, img_title, img_alt, pub_date, guid⟩

/-- The `for (const auto& item : rss_items_tree)` loop of
`to_item_vector`: children keyed `item` are converted and collected in
order, other children are passed over, and a conversion failure aborts the
whole loop (the C++ exception propagates out of `to_item_vector`). -/
def item_loop (parse_rss_frag : CStr → Option ptree) :
    List (String × ptree) → Option (List rss_item)
  | [] => some []
  | (k, sub) :: rest =>
    if k = "item" then
      match rss_item.from_tree parse_rss_frag sub with
      | none => none
      | some item => (item_loop parse_rss_frag rest).map (fun l => item :: l)
    else item_loop parse_rss_frag rest

/-- `pdxka::to_item_vector` from `src/pdxka/rss.cc`: look up the
`rss.channel` subtree (throws when absent) and run the item loop over its
children. -/
def to_item_vector (parse_rss_frag : CStr → Option ptree) (rss_tree : ptree) :
    Option (List rss_item) :=
  match get_child rss_tree ["rss", "channel"] with
  | none => none
  | some ch => item_loop parse_rss_frag ch.children

/-- All seven required item fields resolve, including the three attributes
of the re-parsed description. -/
def required_fields_ok (parse_rss_frag : CStr → Option ptree) (t : ptree) : Bool :=
  (t.get ["title"]).isSome && (t.get ["link"]).isSome &&
  (t.get ["pubDate"]).isSome && (t.get ["guid"]).isSome &&
  (match (t.get ["description"]).bind parse_rss_frag with
   | none => false
   | some dt =>
     (dt.get ["img", "<xmlattr>", "src"]).isSome &&
     (dt.get ["img", "<xmlattr>", "title"]).isSome &&
     (dt.get ["img", "<xmlattr>", "alt"]).isSome)

/-- The bytes a run of the program writes to each stream and the exit
code it returns. -/
structure program_run where
  exit_code : Nat
  out : CStr
  err : CStr
deriving DecidableEq, Repr

/-- Decimal rendering of a `Nat`, as `operator<<` prints the unsigned
values in the diagnostics. -/
def natToCStr (n : Nat) : CStr := (toString n).data

/-- A default-constructed `rss_item` (used only as the out-of-bounds
default of `List.getD`; `program_main` indexes only after its bounds
check). -/
def empty_item : rss_item := ⟨[], [], [], [], [], [], []⟩

/-- The body of `pdxka::program_main` after `extract_args` succeeded
(`src/pdxka/program_main.cc`, lines 147-184): run the RSS factory, report
a cURL failure with `EXIT_FAILURE`; turn the payload into items (the
`parse_rss` + `to_item_vector` composition, passed in as `extract_items`
with exceptions as `.error diagnostic`), reporting failure with
`EXIT_FAILURE + 1`; error on an empty item vector; bounds-check
`previous`; then print the selected item in one-line or fortune style
(`line_wrap` is the external formatting helper). -/
def program_main_body (opts : Cliopts) (rss_factory : Cliopts → curl_result)
    (extract_items : CStr → Except CStr (List rss_item))
    (line_wrap : CStr → CStr) : program_run :=
  let res := rss_factory opts
  if res.status ≠ 0 then
    ⟨1, [], str "cURL error " ++ natToCStr res.status ++ str ": " ++
      res.reason ++ str "\n"⟩
  else
    match extract_items res.payload with
    | .error diag => ⟨2, [], diag ++ str "\n"⟩
    | .ok rss_items =>
      if rss_items.length = 0 then
        ⟨1, [], str "Error: Couldn\x27t find any one-liners in RSS feed!\n"⟩
      else if rss_items.length ≤ opts.previous then
        ⟨1, [], str "Error: Can only go back at most " ++
          natToCStr (rss_items.length - 1) ++ str " strips, not " ++
          natToCStr opts.previous ++ str " strips\n"⟩
      else
        let item := rss_items.getD opts.previous empty_item
        if opts.one_line then
          ⟨0, item.img_title ++ str " \x2d\x2d " ++ item.guid ++ str "\n", []⟩
        else
          ⟨0, line_wrap item.img_title ++ str "\n\t\t\x2d\x2d " ++ item.guid ++
            str "\n", []⟩

/-- `pdxka::program_main`: `extract_args` then the pipeline body.  When
`extract_args` calls `std::exit` the process ends with that code and
whatever was printed. -/
def program_main (argv : List CStr) (rss_factory : Cliopts → curl_result)
    (extract_items : CStr → Except CStr (List rss_item))
    (line_wrap : CStr → CStr) : program_run :=
  match extract_args argv with
  | .exited code out err => ⟨code, out, err⟩
  | .options opts => program_main_body opts rss_factory extract_items line_wrap

/-- The C++ `bool` to `long` conversion applied when a `curl_option` is
constructed from a `bool` in `get_xkcd_rss`. -/
def bool_to_long (b : Bool) : Int := if b then 1 else 0

/-- The values `get_xkcd_rss` in `src/main.cc` binds to the two
transport options it sets. -/
structure xkcd_transport_opts where
  curlopt_verbose : Int
  curlopt_ssl_verifypeer : Int
deriving DecidableEq, Repr

/-- `get_xkcd_rss` from `src/main.cc`: constructs
`curl_option<CURLOPT_VERBOSE> verbose{opts.verbose}` and
`curl_option<CURLOPT_SSL_VERIFYPEER> insecure{opts.insecure}` (the `bool`
converts to `long`) and passes both to `pdxka::get_rss`. -/
def get_xkcd_rss_opts (opts : Cliopts) : xkcd_transport_opts :=
  ⟨bool_to_long opts.verbose, bool_to_long opts.insecure⟩

/-! ## Helper lemmas -/

theorem str_h : str "-h" = ['-', 'h'] := rfl

theorem str_help : str "\x2d\x2dhelp" = ['-', '-', 'h', 'e', 'l', 'p'] := rfl

/-- A token of the fused short form `-bN` (with `N` nonempty) reaches the
`arg.substr(0, 2) == "-b"` branch of `parse_options`, whatever `N` is. -/
theorem parse_options_fused (m : CliOptMap) (a : Char) (t : CStr) (rest : List CStr) :
    parse_options m (('-' :: 'b' :: a :: t) :: rest) =
      parse_options (insert_or_assign m "back" [a :: t]) rest := by
  rw [parse_options.eq_def]
  simp only [str_h, str_help]
  split_ifs with h1 h2 h3 h4 h5 h6 h7 <;> try rfl
  all_goals simp_all [str]

/-- A `-b` token whose following token does not begin with `-` consumes
that token as the back value. -/
theorem parse_options_sep (m : CliOptMap) (a : Char) (t : CStr) (rest : List CStr)
    (ha : a ≠ '-') :
    parse_options m (str "-b" :: (a :: t) :: rest) =
      parse_options (insert_or_assign m "back" [a :: t]) rest := by
  rw [parse_options.eq_def]
  simp only [str_h, str_help]
  split_ifs with h1 h2 h3 h4 h5 h6 <;>
    first
      | rfl
      | simp_all [str, looks_like_option]

/-- A token of the long form `\x2d\x2dback=N` reaches the
`arg.substr(0, 7) == "\x2d\x2dback="` branch of `parse_options`. -/
theorem parse_options_long (m : CliOptMap) (N : CStr) (rest : List CStr) :
    parse_options m ((str "\x2d\x2dback=" ++ N) :: rest) =
      parse_options (insert_or_assign m "back" [N]) rest := by
  show parse_options m (('-' :: '-' :: 'b' :: 'a' :: 'c' :: 'k' :: '=' :: N) :: rest) = _
  rw [parse_options.eq_def]
  simp only [str_h, str_help]
  split_ifs with h1 h2 h3 h4 h5 h6 h7 h8 <;> try rfl
  all_goals simp_all [str]

/-- The ten decimal digit characters. -/
def digit_chars : CStr := ['0', '1', '2', '3', '4', '5', '6', '7', '8', '9']

theorem digit_char_facts (c : Char) (h : c ∈ digit_chars) :
    c.isDigit = true ∧ c.isWhitespace = false ∧ c ≠ '-' ∧ c ≠ '+' ∧ (c == '-') = false := by
  have h2 : c ∈ ['0', '1', '2', '3', '4', '5', '6', '7', '8', '9'] := h
  fin_cases h2 <;> exact ⟨by decide, by decide, by decide, by decide, by decide⟩

/-- `std::stoi` on a pure digit string within the `int` range returns its
value. -/
theorem stoi_digits (N : CStr) (h0 : N ≠ []) (hd : ∀ c ∈ N, c ∈ digit_chars)
    (hle : (digitsToNat N : Int) ≤ 2147483647) :
    stoi N = .ok (digitsToNat N) := by
  obtain ⟨a, t, rfl⟩ := List.exists_cons_of_ne_nil h0
  have ha := digit_char_facts a (hd a (by simp))
  have hdw : (a :: t).dropWhile (fun c => c.isWhitespace) = a :: t := by
    simp [List.dropWhile_cons, ha.2.1]
  have hss : split_sign (a :: t) = (false, a :: t) := by
    simp [split_sign, ha.2.2.1, ha.2.2.2.1]
  have htw : (a :: t).takeWhile (fun c => c.isDigit) = a :: t := by
    rw [List.takeWhile_eq_self_iff]
    intro c hc
    exact (digit_char_facts c (hd c hc)).1
  rw [stoi]
  simp only [hdw, hss, htw]
  rw [if_neg (by simp)]
  rw [if_neg ?hc]
  case hc =>
    rintro (h | h) <;> omega
  rfl

/-- When `parse_options` yields a map holding only a `back` value that
`stoi` accepts, `extract_args` returns the options record with that
`previous`. -/
theorem extract_args_back (argv : List CStr) (N : CStr)
    (hp : parse_options [] argv = .ok [("back", [N])])
    (hstoi : stoi N = .ok (digitsToNat N)) :
    extract_args argv = .options ⟨false, digitsToNat N, false, false⟩ := by
  rw [extract_args.eq_def, hp]
  simp [cliopt_find, extract_previous, hstoi]
  rw [if_neg (by omega)]

/-- `rss_item::from_tree` succeeds exactly when all seven required fields
resolve. -/
theorem from_tree_isSome_eq (p : CStr → Option ptree) (t2 : ptree) :
    (rss_item.from_tree p t2).isSome = required_fields_ok p t2 := by
  rw [rss_item.from_tree, required_fields_ok]
  cases t2.get ["title"] <;> simp
  cases t2.get ["link"] <;> simp
  cases t2.get ["pubDate"] <;> simp
  cases t2.get ["guid"] <;> simp
  cases t2.get ["description"] <;> simp
  next d =>
  cases p d <;> simp
  next dt =>
  cases dt.get ["img", "<xmlattr>", "src"] <;> simp
  cases dt.get ["img", "<xmlattr>", "title"] <;> simp
  cases dt.get ["img", "<xmlattr>", "alt"] <;> simp

/-- The item loop is the monadic map of `from_tree` over the children
keyed `item`, in order. -/
theorem item_loop_eq (p : CStr → Option ptree) :
    ∀ l, item_loop p l =
      (l.filter (fun q => q.1 == "item")).mapM (fun q => rss_item.from_tree p q.2) := by
  intro l
  induction l with
  | nil => rfl
  | cons hd tl ih =>
    obtain ⟨k, sub⟩ := hd
    by_cases hk : k = "item"
    · subst hk
      rw [item_loop]
      rw [if_pos rfl]
      rw [show (("item", sub) :: tl).filter (fun q => q.1 == "item") =
            ("item", sub) :: tl.filter (fun q => q.1 == "item") from by
          simp [List.filter_cons]]
      rw [List.mapM_cons]
      cases h : rss_item.from_tree p sub <;>
        simp [ih, h, Option.map_eq_bind]
    · rw [item_loop]
      rw [if_neg hk]
      rw [show (((k, sub) :: tl)).filter (fun q => q.1 == "item") =
            tl.filter (fun q => q.1 == "item") from by simp [List.filter_cons, hk]]
      exact ih

/-- A successful `put` appends one byte and keeps the capacity. -/
theorem sput_eq_some (st st2 : sstream) (c : Char) (h : st.put c = some st2) :
    st2 = ⟨st.contents ++ [c], st.capacity⟩ := by
  rcases st with ⟨cs, cap⟩
  cases cap with
  | none => simpa [sstream.put] using h.symm
  | some k =>
    simp only [sstream.put] at h
    split_ifs at h with hc
    simpa using h.symm

/-- The writer loop appends exactly the bytes it counts, and stops only at
the end of the buffer or at a byte whose `put` raises. -/
theorem writer_loop_spec (buf : CStr) : ∀ st : sstream,
    (writer_loop st buf).1 ≤ buf.length ∧
    (writer_loop st buf).2 = ⟨st.contents ++ buf.take (writer_loop st buf).1, st.capacity⟩ ∧
    ((writer_loop st buf).1 < buf.length →
      sstream.put (writer_loop st buf).2 (buf.getD (writer_loop st buf).1 '0') = none) := by
  induction buf with
  | nil => intro st; exact ⟨le_refl _, by simp [writer_loop], by simp [writer_loop]⟩
  | cons c rest ih =>
    intro st
    rw [writer_loop]
    cases hput : st.put c with
    | none =>
      refine ⟨by simp, by simp, ?_⟩
      intro _
      simpa using hput
    | some st2 =>
      obtain ⟨h1, h2, h3⟩ := ih st2
      have hst2 := sput_eq_some st st2 c hput
      refine ⟨by simpa using Nat.succ_le_succ h1, ?_, ?_⟩
      · simp only [List.take_succ_cons]
        rw [h2, hst2]
        simp
      · intro hlt
        have hlt2 : (writer_loop st2 rest).1 < rest.length := by simpa using hlt
        simpa using h3 hlt2

/-! ## Claim theorems -/

/-- Claim C1.  The source and its own test suite expect the token
following `-b` that begins with `-` to be re-scanned as its own argument
(`-b -h` showing help); the code instead records `previous = 1` and steps
over the token, so `-b -h` never sets the help key and `-b -1900` (test
input `argv_type_10`, expected to exit with `EXIT_FAILURE`) runs to a
successful exit. -/
theorem back_option_consumes_following_option :
    extract_args [str "-b", str "-h"] =
      .options ⟨false, 1, false, false⟩ ∧
    extract_args [str "-b", str "-1900"] =
      .options ⟨false, 1, false, false⟩ ∧
    program_main [str "-b", str "-1900"] (fun _ => ⟨0, [], .get, []⟩)
      (fun _ => .ok [empty_item, empty_item]) id =
      ⟨0, str "\n\t\t\x2d\x2d \n", []⟩ := by
  decide

/-- Claim C2.  `get_xkcd_rss` passes `opts.insecure` to
`CURLOPT_SSL_VERIFYPEER` without negation: a run without `-k`
(`insecure = false`) sets the option to `0`, disabling certificate
verification, and a run with `-k` sets it to `1`. -/
theorem ssl_verifypeer_uses_unnegated_insecure :
    (get_xkcd_rss_opts ⟨false, 0, false, false⟩).curlopt_ssl_verifypeer = 0 ∧
    (get_xkcd_rss_opts ⟨false, 0, false, true⟩).curlopt_ssl_verifypeer = 1 ∧
    ∀ opts, (get_xkcd_rss_opts opts).curlopt_ssl_verifypeer = bool_to_long opts.insecure :=
  ⟨by decide, by decide, fun _ => rfl⟩

/-- Claim C3, counterexample.  The fused token `-b-9888` is not an
unknown-option failure: the fused-short-form branch accepts it with value
`-9888`; and `-b` followed by the separate token `-9888` is not a
negative-value failure: it parses successfully with `previous = 1`. -/
theorem fused_negative_is_not_unknown_option :
    parse_options [] [str "-b-9888"] = .ok [("back", [str "-9888"])] ∧
    extract_args [str "-b", str "-9888"] = .options ⟨false, 1, false, false⟩ := by
  decide

/-- Claim C3, amended.  The fused token `-b-9888` scans as the fused form
with value text `-9888` and then fails in value parsing with the
negative-value error; the separate form consumes the `-9888` token and
succeeds with `previous = 1`; the two forms produce different outcomes. -/
theorem negative_back_forms_outcomes :
    extract_args [str "-b-9888"] =
      .exited 1 [] (prev_error_msg (PrevError.negative (-9888))) ∧
    extract_previous [("back", [str "-9888"])] =
      .error (PrevError.negative (-9888)) ∧
    extract_args [str "-b-9888"] ≠ extract_args [str "-b", str "-9888"] := by
  decide

/-- Claim C4, counterexample.  An argument error (unknown option) and a
transport error (non-zero cURL status) both terminate with exit code 1:
the classes are not pairwise distinguishable by exit code. -/
theorem argument_and_transport_share_exit_code :
    (program_main [str "\x2d\x2dbogus"] (fun _ => ⟨0, [], .get, []⟩)
      (fun _ => .ok []) id).exit_code = 1 ∧
    (program_main [] (fun _ => ⟨6, str "no host", .get, []⟩)
      (fun _ => .ok []) id).exit_code = 1 := by
  decide

/-- Claim C4, amended.  All failure classes exit non-zero: argument
errors (here an invalid back value), transport errors and bounds errors
exit 1, parse errors exit 2; parse errors are distinguishable from the
other classes, but argument and transport errors share exit code 1. -/
theorem exit_code_classes :
    (program_main [str "-bxyz"] (fun _ => ⟨0, [], .get, []⟩)
      (fun _ => .ok []) id).exit_code = 1 ∧
    (program_main [] (fun _ => ⟨7, str "connect fail", .get, []⟩)
      (fun _ => .ok []) id).exit_code = 1 ∧
    (program_main [] (fun _ => ⟨0, [], .get, []⟩)
      (fun _ => .error (str "rss parse failure")) id).exit_code = 2 ∧
    (program_main [str "-b5"] (fun _ => ⟨0, [], .get, []⟩)
      (fun _ => .ok [empty_item]) id).exit_code = 1 ∧
    (1 : Nat) ≠ 0 ∧ (2 : Nat) ≠ 0 ∧ (2 : Nat) ≠ 1 := by
  decide

/-- Claim C5, counterexample.  A token after `-h` can change the outcome:
with `["-h", "\x2d\x2dbogus"]` the scan continues past `-h`, hits the unknown
option, and the run exits 1 with no help text instead of exiting 0 with
the usage text. -/
theorem token_after_help_changes_outcome :
    program_main [str "-h", str "\x2d\x2dbogus"] (fun _ => ⟨0, [], .get, []⟩)
      (fun _ => .ok []) id =
      ⟨1, [], str "Error: unknown option \x2d\x2dbogus\n"⟩ ∧
    program_main [str "-h", str "\x2d\x2dbogus"] (fun _ => ⟨0, [], .get, []⟩)
      (fun _ => .ok []) id ≠
      ⟨0, program_description ++ str "\n", []⟩ := by
  decide

/-- Claim C5, amended.  For the argument list `["-h"]` (or `["\x2d\x2dhelp"]`)
the usage text is printed to standard output, the process exits 0, and
the retrieval and extraction functions are never consulted (the result is
the same for every choice of them); the interpreter does however keep
scanning, and an unknown token after `-h` turns the run into the
unknown-option failure. -/
theorem help_short_circuit :
    (∀ (f : Cliopts → curl_result) (e : CStr → Except CStr (List rss_item))
        (lw : CStr → CStr),
      program_main [str "-h"] f e lw = ⟨0, program_description ++ str "\n", []⟩) ∧
    (∀ (f : Cliopts → curl_result) (e : CStr → Except CStr (List rss_item))
        (lw : CStr → CStr),
      program_main [str "\x2d\x2dhelp"] f e lw =
        ⟨0, program_description ++ str "\n", []⟩) ∧
    (∀ (f : Cliopts → curl_result) (e : CStr → Except CStr (List rss_item))
        (lw : CStr → CStr),
      program_main [str "-h", str "\x2d\x2dbogus"] f e lw =
        ⟨1, [], str "Error: unknown option \x2d\x2dbogus\n"⟩) :=
  ⟨fun _ _ _ => rfl, fun _ _ _ => rfl, fun _ _ _ => rfl⟩

/-- Claim C6, counterexample.  The digit string `2147483648` denotes an
integer `n ≥ 0` yet does not parse to `previous = n`: it raises the
out-of-range error; and the negative error for `-b-09888` names the
parsed value `-9888`, not the offending text `-09888`. -/
theorem back_value_range_and_negative_reporting :
    extract_args [str "-b2147483648"] =
      .exited 1 [] (prev_error_msg (PrevError.out_of_range (str "2147483648"))) ∧
    extract_args [str "-b-09888"] =
      .exited 1 [] (prev_error_msg (PrevError.negative (-9888))) := by
  decide

/-- Claim C6, amended.  For every nonempty digit string `N` whose value is
at most `INT_MAX = 2147483647`, the fused `-bN`, separate `-b N` and long
`\x2d\x2dback=N` forms all produce `previous = value of N`; the three value
failures are distinct errors: not-an-integer and out-of-range carry the
offending text, the negative case carries the parsed value. -/
theorem back_value_parsing :
    (∀ N : CStr, N ≠ [] → (∀ c ∈ N, c ∈ digit_chars) →
      (digitsToNat N : Int) ≤ 2147483647 →
      extract_args [('-' :: 'b' :: N)] =
        .options ⟨false, digitsToNat N, false, false⟩ ∧
      extract_args [str "-b", N] =
        .options ⟨false, digitsToNat N, false, false⟩ ∧
      extract_args [str "\x2d\x2dback=" ++ N] =
        .options ⟨false, digitsToNat N, false, false⟩) ∧
    (∀ V : CStr, stoi V = .error .invalid_argument →
      extract_previous [("back", [V])] = .error (PrevError.invalid_argument V)) ∧
    (∀ V : CStr, stoi V = .error .out_of_range →
      extract_previous [("back", [V])] = .error (PrevError.out_of_range V)) ∧
    (∀ (V : CStr) (v : Int), stoi V = .ok v → v < 0 →
      extract_previous [("back", [V])] = .error (PrevError.negative v)) := by
  refine ⟨?_, ?_, ?_, ?_⟩
  · intro N h0 hd hle
    obtain ⟨a, t, rfl⟩ := List.exists_cons_of_ne_nil h0
    have ha := digit_char_facts a (hd a (by simp))
    have hstoi := stoi_digits (a :: t) (by simp) hd hle
    refine ⟨?_, ?_, ?_⟩
    · exact extract_args_back _ _ (by rw [parse_options_fused]; rfl) hstoi
    · exact extract_args_back _ _ (by rw [parse_options_sep _ _ _ _ ha.2.2.1]; rfl) hstoi
    · exact extract_args_back _ _ (by rw [parse_options_long]; rfl) hstoi
  · intro V h
    simp [extract_previous, cliopt_find, h]
  · intro V h
    simp [extract_previous, cliopt_find, h]
  · intro V v h hneg
    simp [extract_previous, cliopt_find, h, hneg]

/-- Witness for `back_value_parsing`: the digit string `2` in all three
forms, and the not-an-integer error for the text `xyz`. -/
theorem back_value_parsing_witness :
    (extract_args [str "-b2"] = .options ⟨false, 2, false, false⟩ ∧
      extract_args [str "-b", str "2"] = .options ⟨false, 2, false, false⟩ ∧
      extract_args [str "\x2d\x2dback=" ++ str "2"] = .options ⟨false, 2, false, false⟩) ∧
    extract_previous [("back", [str "xyz"])] =
      .error (PrevError.invalid_argument (str "xyz")) :=
  ⟨back_value_parsing.1 (str "2") (by decide) (by decide) (by decide),
   back_value_parsing.2.1 (str "xyz") (by decide)⟩

/-- Claim C7.  After a successful retrieval and extraction yielding
`items`: an in-bounds `previous` selects exactly the item at that index
and exits 0; `previous ≥ length` (with a nonempty sequence) prints the
bounds error naming `length - 1` as the maximum and exits 1 without
selecting; an empty sequence yields the no-entries error and exit 1. -/
theorem program_main_selection (opts : Cliopts) (rss_factory : Cliopts → curl_result)
    (extract_items : CStr → Except CStr (List rss_item)) (line_wrap : CStr → CStr)
    (items : List rss_item)
    (hstatus : (rss_factory opts).status = 0)
    (hitems : extract_items (rss_factory opts).payload = .ok items) :
    (opts.previous < items.length →
      program_main_body opts rss_factory extract_items line_wrap =
        ⟨0,
          (if opts.one_line then
            (items.getD opts.previous empty_item).img_title ++ str " \x2d\x2d " ++
              (items.getD opts.previous empty_item).guid ++ str "\n"
          else
            line_wrap (items.getD opts.previous empty_item).img_title ++
              str "\n\t\t\x2d\x2d " ++ (items.getD opts.previous empty_item).guid ++
              str "\n"),
          []⟩) ∧
    (0 < items.length → items.length ≤ opts.previous →
      program_main_body opts rss_factory extract_items line_wrap =
        ⟨1, [],
          str "Error: Can only go back at most " ++ natToCStr (items.length - 1) ++
            str " strips, not " ++ natToCStr opts.previous ++ str " strips\n"⟩) ∧
    (items.length = 0 →
      program_main_body opts rss_factory extract_items line_wrap =
        ⟨1, [], str "Error: Couldn\x27t find any one-liners in RSS feed!\n"⟩) := by
  rw [program_main_body]
  rw [if_neg (by simp [hstatus])]
  simp only [hitems]
  refine ⟨?_, ?_, ?_⟩
  · intro hlt
    rw [if_neg (by omega), if_neg (by omega)]
    split_ifs <;> rfl
  · intro hpos hle
    rw [if_neg (by omega), if_pos (by omega)]
  · intro hz
    rw [if_pos hz]

/-- Witness for `program_main_selection`: a one-item feed with
`previous = 0` in one-line mode. -/
theorem program_main_selection_witness :
    (0 : Nat) < 1 ∧
    program_main_body ⟨true, 0, false, false⟩ (fun _ => ⟨0, [], .get, []⟩)
      (fun _ => .ok [⟨str "T", [], [], str "IT", [], [], str "G"⟩]) id =
      ⟨0, str "IT \x2d\x2d G\n", []⟩ :=
  ⟨by decide,
    (program_main_selection ⟨true, 0, false, false⟩ (fun _ => ⟨0, [], .get, []⟩)
      (fun _ => .ok [⟨str "T", [], [], str "IT", [], [], str "G"⟩]) id
      [⟨str "T", [], [], str "IT", [], [], str "G"⟩] rfl rfl).1 (by decide)⟩

/-- Claim C8.  `to_item_vector` produces exactly one item per child keyed
`item` of the `rss.channel` subtree, in document order (a monadic map
over the filtered children), other child names are skipped; an item
succeeds exactly when all seven required fields resolve, and the whole
loop succeeds exactly when every `item` child converts (no partial
result survives a failure). -/
theorem to_item_vector_extraction :
    (∀ (p : CStr → Option ptree) (t : ptree),
      to_item_vector p t =
        (get_child t ["rss", "channel"]).bind (fun ch =>
          (ch.children.filter (fun q => q.1 == "item")).mapM
            (fun q => rss_item.from_tree p q.2))) ∧
    (∀ (p : CStr → Option ptree) (t2 : ptree),
      (rss_item.from_tree p t2).isSome = required_fields_ok p t2) ∧
    (∀ (p : CStr → Option ptree) (l : List (String × ptree)),
      (item_loop p l).isSome =
        l.all (fun q => !(q.1 == "item") || (rss_item.from_tree p q.2).isSome)) := by
  refine ⟨?_, from_tree_isSome_eq, ?_⟩
  · intro p t
    rw [to_item_vector]
    cases get_child t ["rss", "channel"] with
    | none => rfl
    | some ch => simp [item_loop_eq]
  · intro p l
    induction l with
    | nil => rfl
    | cons hd tl ih =>
      obtain ⟨k, sub⟩ := hd
      by_cases hk : k = "item"
      · subst hk
        rw [item_loop, if_pos rfl]
        cases h : rss_item.from_tree p sub <;> simp [h, ih]
      · rw [item_loop, if_neg hk]
        simp [hk, ih]

/-- Claim C9, counterexample.  A transfer that fails in
`curl_easy_perform` after the write callback received bytes returns those
bytes as the payload with a non-success status; and a failed
`curl_easy_init` returns success status `0` with a non-empty diagnostic. -/
theorem request_result_invariant_fails :
    ((get_rss ⟨0, true, 0, [], 6, [str "abc"], str "Recv failure"⟩).status ≠ 0 ∧
      (get_rss ⟨0, true, 0, [], 6, [str "abc"], str "Recv failure"⟩).payload ≠ []) ∧
    ((get_rss ⟨0, false, 0, [], 0, [], []⟩).status = 0 ∧
      (get_rss ⟨0, false, 0, [], 0, [], []⟩).reason ≠ []) := by
  decide

/-- Claim C9, amended.  The payload of a `get_rss` result is exactly the
bytes the write callback accumulated: empty when the run fails before
`curl_easy_perform`, and all delivered chunks (possibly non-empty even on
failure) once the transfer ran; the diagnostic is empty whenever the
status is success, except that a failed `curl_easy_init` leaves the
success status with the diagnostic `curl_easy_init errored`. -/
theorem get_rss_result_characterization (t : rss_transfer) :
    ((get_rss t).payload = if reached_perform t then t.chunks.flatten else []) ∧
    ((get_rss t).status = 0 →
      (get_rss t).reason = [] ∨
        (t.easy_init_ok = false ∧ (get_rss t).reason = str "curl_easy_init errored")) := by
  rw [get_rss]
  split_ifs with h1 h2 h3 h4 h5 <;> simp_all [reached_perform]

/-- Witness for `get_rss_result_characterization`: a fully successful
transfer delivering one chunk. -/
theorem get_rss_result_characterization_witness :
    ((get_rss ⟨0, true, 0, [], 0, [str "xml"], []⟩).payload =
      if reached_perform ⟨0, true, 0, [], 0, [str "xml"], []⟩ then
        ([str "xml"] : List CStr).flatten
      else []) ∧
    ((get_rss ⟨0, true, 0, [], 0, [str "xml"], []⟩).reason = [] ∨
      ((⟨0, true, 0, [], 0, [str "xml"], []⟩ : rss_transfer).easy_init_ok = false ∧
        (get_rss ⟨0, true, 0, [], 0, [str "xml"], []⟩).reason =
          str "curl_easy_init errored")) :=
  ⟨(get_rss_result_characterization ⟨0, true, 0, [], 0, [str "xml"], []⟩).1,
   (get_rss_result_characterization ⟨0, true, 0, [], 0, [str "xml"], []⟩).2 (by decide)⟩

/-- Claim C10.  `curl_writer` with a null incoming buffer or null stream
returns 0 and writes nothing; otherwise it appends exactly the bytes it
counts, returning the buffer length on success and, when a `put` raises,
the number of bytes appended before the exception (the next byte is
precisely the one whose `put` fails); no exception escapes. -/
theorem curl_writer_safety :
    (∀ stream, curl_writer none stream = (0, stream)) ∧
    (∀ buf, curl_writer (some buf) none = (0, none)) ∧
    (∀ (buf : CStr) (st : sstream),
      (curl_writer (some buf) (some st)).1 ≤ buf.length ∧
      (curl_writer (some buf) (some st)).2 =
        some ⟨st.contents ++ buf.take (curl_writer (some buf) (some st)).1,
          st.capacity⟩ ∧
      ((curl_writer (some buf) (some st)).1 < buf.length →
        sstream.put
          ⟨st.contents ++ buf.take (curl_writer (some buf) (some st)).1, st.capacity⟩
          (buf.getD (curl_writer (some buf) (some st)).1 '0') = none)) := by
  refine ⟨fun _ => rfl, fun _ => rfl, ?_⟩
  intro buf st
  obtain ⟨h1, h2, h3⟩ := writer_loop_spec buf st
  refine ⟨h1, ?_, ?_⟩
  · show some (writer_loop st buf).2 =
      some ⟨st.contents ++ buf.take (writer_loop st buf).1, st.capacity⟩
    rw [h2]
  · show (writer_loop st buf).1 < buf.length →
      sstream.put ⟨st.contents ++ buf.take (writer_loop st buf).1, st.capacity⟩
        (buf.getD (writer_loop st buf).1 '0') = none
    intro hlt
    have h4 := h3 hlt
    rw [h2] at h4
    exact h4

/-- Witness for `curl_writer_safety`: a two-byte buffer against a stream
whose capacity admits a single byte, so the second `put` raises. -/
theorem curl_writer_safety_witness :
    (curl_writer (some (str "ab")) (some ⟨[], some 1⟩)).1 < (str "ab").length ∧
    sstream.put
      ⟨([] : CStr) ++ (str "ab").take (curl_writer (some (str "ab")) (some ⟨[], some 1⟩)).1,
        some 1⟩
      ((str "ab").getD (curl_writer (some (str "ab")) (some ⟨[], some 1⟩)).1 '0') = none :=
  ⟨by decide, (curl_writer_safety.2.2 (str "ab") ⟨[], some 1⟩).2.2 (by decide)⟩

end Pdxka
